import Mathlib

/-
Verification development for the media-import synchronization engine
(xbmc media/import handlers and the database manager).

The definitions below are shallow embeddings of the C++ source:
  - CVideoImportHandler::Compare and RemoveAutoArtwork
    (media/import/handlers/VideoImportHandler.cpp)
  - CMovieSetImportHandler::RemoveImportedItem
    (media/import/handlers/MovieSetImportHandler.cpp)
  - CSeasonImportHandler::FindTvShowId / AddImportedItem / RemoveImportedItem
    (media/import/handlers/SeasonImportHandler.cpp)
  - CEpisodeImportHandler::FindTvShowId
    (media/import/handlers/EpisodeImportHandler.cpp)
  - CDatabaseManager::CanOpen (DatabaseManager.cpp)

Art maps (std::map<std::string,std::string>) are modelled as key-value
lists in canonical (key-sorted) order, so map equality is list equality
and map size is list length.  Helpers of the video database and of
CVideoInfoTag that live outside the handler sources are modelled from
the specification and marked as such in their doc comments.
-/

namespace XbmcImport

/-- Media types relevant to the video import handlers
(values of CVideoInfoTag::m_type). -/
inductive MediaType where
  | movie
  | movieSet
  | tvshow
  | season
  | episode
  | musicVideo
  | noneType
deriving DecidableEq, Repr

/-- The metadata fields compared by CVideoInfoTag::GetDifferences; the
enumeration covers every field named by the handlers' IgnoreDifferences
lists together with the playback fields and the title fields. -/
inductive Field where
  | FieldActor
  | FieldAirDate
  | FieldAlbum
  | FieldArtist
  | FieldCountry
  | FieldDirector
  | FieldEpisodeNumber
  | FieldEpisodeNumberSpecialSort
  | FieldFilename
  | FieldGenre
  | FieldInProgress
  | FieldLastPlayed
  | FieldMPAA
  | FieldOriginalTitle
  | FieldPath
  | FieldPlaycount
  | FieldPlot
  | FieldPlotOutline
  | FieldProductionCode
  | FieldRating
  | FieldSeason
  | FieldSeasonSpecialSort
  | FieldSet
  | FieldSortTitle
  | FieldStudio
  | FieldTag
  | FieldTagline
  | FieldTime
  | FieldTitle
  | FieldTop250
  | FieldTrackNumber
  | FieldTrailer
  | FieldTvShowStatus
  | FieldTvShowTitle
  | FieldUniqueId
  | FieldUserRating
  | FieldWriter
deriving DecidableEq, Fintype, Repr

/-- All metadata fields, used to compute the full field-level difference
set between two items. -/
def allFields : List Field :=
  [Field.FieldActor, Field.FieldAirDate, Field.FieldAlbum, Field.FieldArtist,
   Field.FieldCountry, Field.FieldDirector, Field.FieldEpisodeNumber,
   Field.FieldEpisodeNumberSpecialSort, Field.FieldFilename, Field.FieldGenre,
   Field.FieldInProgress, Field.FieldLastPlayed, Field.FieldMPAA,
   Field.FieldOriginalTitle, Field.FieldPath, Field.FieldPlaycount,
   Field.FieldPlot, Field.FieldPlotOutline, Field.FieldProductionCode,
   Field.FieldRating, Field.FieldSeason, Field.FieldSeasonSpecialSort,
   Field.FieldSet, Field.FieldSortTitle, Field.FieldStudio, Field.FieldTag,
   Field.FieldTagline, Field.FieldTime, Field.FieldTitle, Field.FieldTop250,
   Field.FieldTrackNumber, Field.FieldTrailer, Field.FieldTvShowStatus,
   Field.FieldTvShowTitle, Field.FieldUniqueId, Field.FieldUserRating,
   Field.FieldWriter]

/-- One entry of CVideoInfoTag::m_cast (SActorInfo): actor name, role,
thumbnail and the raw thumbnail URL data (thumbUrl.m_data). -/
structure ActorInfo where
  strName : String
  strRole : String
  thumb : String
  thumbUrlData : String
deriving DecidableEq, Repr

/-- Shallow embedding of CVideoInfoTag, restricted to the data the import
handlers read: identity fields, playback state, the cast and the fields
compared by GetDifferences.  Fields that the handlers only ever compare
for equality are folded into the scalarField projection (one opaque
string per metadata field). -/
structure VideoInfoTag where
  m_type : MediaType
  m_strTitle : String
  m_strShowTitle : String
  /-- Premiere year; 0 encodes the absence of a year (HasYear = year > 0). -/
  year : Nat
  m_iDbId : Int
  m_iIdShow : Int
  m_iSeason : Int
  m_iEpisode : Int
  playCount : Nat
  m_lastPlayed : String
  /-- GetResumePoint().timeInSeconds, only ever compared for equality. -/
  resumeTimeInSeconds : Int
  m_cast : List ActorInfo
  /-- GetPath() of the tag. -/
  path : String
  m_basePath : String
  /-- Remaining metadata fields, one value per field, compared for
  equality by the difference computation. -/
  scalarField : Field → String

/-- A default-initialised CVideoInfoTag (CVideoInfoTag::Reset): database
ids are -1, everything else empty. -/
def emptyTag : VideoInfoTag :=
  { m_type := MediaType.noneType
    m_strTitle := ""
    m_strShowTitle := ""
    year := 0
    m_iDbId := -1
    m_iIdShow := -1
    m_iSeason := -1
    m_iEpisode := -1
    playCount := 0
    m_lastPlayed := ""
    resumeTimeInSeconds := 0
    m_cast := []
    path := ""
    m_basePath := ""
    scalarField := fun _ => "" }

/-- An art map entry: artwork type (key) and URL (value). -/
abbrev ArtMap := List (String × String)

/-- Shallow embedding of CFileItem as the import handlers see it: an
optional video info tag and the item's art map. -/
structure FileItem where
  tag : Option VideoInfoTag
  art : ArtMap

/-- Modelled from the spec: CVideoInfoTag::GetDifferences computes the
full field-level difference set between the two items' metadata (the
function itself lives in video/VideoInfoTag.cpp, outside the handler
sources).  A field differs when the corresponding tag data differ. -/
def fieldDiffers (o n : VideoInfoTag) : Field → Bool
  | Field.FieldActor => decide (o.m_cast ≠ n.m_cast)
  | Field.FieldPlaycount => decide (o.playCount ≠ n.playCount)
  | Field.FieldLastPlayed => decide (o.m_lastPlayed ≠ n.m_lastPlayed)
  | Field.FieldInProgress => decide (o.resumeTimeInSeconds ≠ n.resumeTimeInSeconds)
  | Field.FieldTitle => decide (o.m_strTitle ≠ n.m_strTitle)
  | Field.FieldTvShowTitle => decide (o.m_strShowTitle ≠ n.m_strShowTitle)
  | Field.FieldSeason => decide (o.m_iSeason ≠ n.m_iSeason)
  | Field.FieldEpisodeNumber => decide (o.m_iEpisode ≠ n.m_iEpisode)
  | Field.FieldPath => decide (o.path ≠ n.path)
  | f => decide (o.scalarField f ≠ n.scalarField f)

/-- Modelled from the spec: the difference set returned through
CVideoInfoTag::GetDifferences (step 3 of the comparator: the full
field-level difference set between the two items' metadata). -/
def GetDifferences (o n : VideoInfoTag) : List Field :=
  allFields.filter (fieldDiffers o n)

/-- StringUtils::StartsWith: the second string is a prefix of the first,
decided on the underlying character lists. -/
def strStartsWith (s pre : String) : Bool :=
  decide (s.data.take pre.data.length = pre.data)

/-- CVideoImportHandler::RemoveAutoArtwork: drops art entries whose URL
is a reserved default image, whose URL uses the generated-thumbnail
image:// scheme, or whose key starts with one of the parent prefixes
followed by a dot (VideoImportHandler.cpp lines 382-407). -/
def RemoveAutoArtwork (artwork : ArtMap) (parentPrefixes : List String) : ArtMap :=
  artwork.filter fun art =>
    ¬(art.2 = "DefaultVideo.png" ∨ art.2 = "DefaultFolder.png" ∨
      strStartsWith art.2 "image://" = true ∨
      (parentPrefixes ≠ [] ∧
        (parentPrefixes.any fun p => strStartsWith art.1 (p ++ ".")) = true))

/-- The parent prefixes selected by Compare from the original item's
media type (VideoImportHandler.cpp lines 296-301). -/
def parentPrefixesFor : MediaType → List String
  | MediaType.movie => ["set"]
  | MediaType.season => ["tvshow", "season"]
  | MediaType.episode => ["tvshow", "season"]
  | _ => []

/-- The playback-field erasure of Compare: when playback metadata is not
compared, play count, last played and the resume point are removed from
the difference set (VideoImportHandler.cpp lines 316-321). -/
def erasePlaybackFields (playbackMetadata : Bool) (diffs : List Field) : List Field :=
  if playbackMetadata then diffs
  else diffs.filter fun f =>
    f ≠ Field.FieldPlaycount ∧ f ≠ Field.FieldLastPlayed ∧ f ≠ Field.FieldInProgress

/-- The ignored-field erasure of Compare: every field of the handler's
IgnoreDifferences set is removed from the difference set
(VideoImportHandler.cpp lines 323-326). -/
def eraseIgnoredFields (ignoredDifferences : List Field) (diffs : List Field) : List Field :=
  diffs.filter fun f => ¬ f ∈ ignoredDifferences

/-- The element-wise cast comparison of Compare (VideoImportHandler.cpp
lines 332-356): an empty incoming cast always counts as equal; otherwise
the casts must have the same length and agree pairwise on name and role,
on the thumbnail unless the incoming thumbnail is empty, and on the
thumbnail URL data unless the incoming data is empty. -/
def castsCompatible (originalCast newCast : List ActorInfo) : Bool :=
  if newCast = [] then true
  else if originalCast.length = newCast.length then
    (originalCast.zip newCast).all fun p =>
      decide (p.1.strName = p.2.strName) && decide (p.1.strRole = p.2.strRole) &&
      (decide (p.2.thumb = "") || decide (p.1.thumb = p.2.thumb)) &&
      (decide (p.2.thumbUrlData = "") || decide (p.1.thumbUrlData = p.2.thumbUrlData))
  else false

/-- The special handling for actors in Compare (VideoImportHandler.cpp
lines 328-360): when the cast field is flagged as different and the
casts compare equal under castsCompatible, the cast difference is
erased. -/
def applyActorSpecialCase (o n : VideoInfoTag) (diffs : List Field) : List Field :=
  if Field.FieldActor ∈ diffs then
    if castsCompatible o.m_cast n.m_cast then diffs.filter (fun f => f ≠ Field.FieldActor)
    else diffs
  else diffs

/-- The metadata part of CVideoImportHandler::Compare (lines 308-365):
compute the difference set, drop playback fields when requested, drop
the handler's ignored fields, apply the cast special case, and report
equality iff the remaining difference set is empty.  The early Equals
shortcut and GetDifferences returning false both correspond to an empty
difference set. -/
def compareMetadata (ignoredDifferences : List Field) (o n : VideoInfoTag)
    (playbackMetadata : Bool) : Bool :=
  let differences := GetDifferences o n
  if differences = [] then true
  else
    let differences := erasePlaybackFields playbackMetadata differences
    let differences := eraseIgnoredFields ignoredDifferences differences
    let differences := applyActorSpecialCase o n differences
    differences = []

/-- CVideoImportHandler::Compare (VideoImportHandler.cpp lines 267-366),
parameterised by the handler's IgnoreDifferences set.  Null items and
items without a video info tag compare unequal; in lightweight mode
(allMetadata = false) equality reduces to play count, last played and
resume seconds; otherwise the artwork gate runs before the metadata
comparison. -/
def Compare (ignoredDifferences : List Field) (originalItem newItem : FileItem)
    (allMetadata playbackMetadata : Bool) : Bool :=
  match originalItem.tag, newItem.tag with
  | some o, some n =>
    if allMetadata = false then
      decide (o.playCount = n.playCount) && decide (o.m_lastPlayed = n.m_lastPlayed) &&
        decide (o.resumeTimeInSeconds = n.resumeTimeInSeconds)
    else
      let originalArt := originalItem.art
      let newArt := newItem.art
      if originalArt ≠ newArt then
        if originalArt.length = newArt.length then false
        else
          let strippedArt := RemoveAutoArtwork originalArt (parentPrefixesFor o.m_type)
          if strippedArt ≠ newArt then false
          else compareMetadata ignoredDifferences o n playbackMetadata
      else compareMetadata ignoredDifferences o n playbackMetadata
  | _, _ => false

/-- The per-handler IgnoreDifferences set of the episode import handler
(EpisodeImportHandler.cpp lines 138-157). -/
def episodeIgnoreDifferences : List Field :=
  [Field.FieldActor, Field.FieldAlbum, Field.FieldArtist, Field.FieldCountry,
   Field.FieldGenre, Field.FieldMPAA, Field.FieldPlotOutline, Field.FieldSet,
   Field.FieldSortTitle, Field.FieldStudio, Field.FieldTag, Field.FieldTagline,
   Field.FieldTop250, Field.FieldTrackNumber, Field.FieldTrailer,
   Field.FieldTvShowStatus, Field.FieldTvShowTitle]

/-- Outcome of a movie-set removal on the storage side. -/
inductive SetRemovalEffect where
  /-- No write was performed, the set entity is untouched. -/
  | noEffect
  /-- Only the (import, mediaType) link was removed (RemoveImportFromItem);
  the set entity survives. -/
  | importLinkRemoved
  /-- The set entity was deleted (DeleteSet). -/
  | setDeleted
deriving DecidableEq, Repr

/-- The storage answers consumed by CMovieSetImportHandler::RemoveImportedItem:
the two COUNT-only queries, each of which can fail (none) or yield the
count extracted by GetTotalItemsInDb (-1 when the total property is
missing). -/
structure MovieSetRemovalEnv where
  /-- Count of movies in the set linked to this import
  (GetMoviesByWhere with imported/source/import/setid options). -/
  importedMoviesInSet : Option Int
  /-- Count of all movies in the set regardless of import
  (GetMoviesByWhere with only the setid option). -/
  allMoviesInSet : Option Int

/-- CMovieSetImportHandler::RemoveImportedItem(videodb, import, item,
onlyIfEmpty) (MovieSetImportHandler.cpp lines 167-233), returning the
boolean result together with the effect on the set entity. -/
def movieSetRemoveImportedItem (env : MovieSetRemovalEnv) (item : Option FileItem)
    (onlyIfEmpty : Bool) : Bool × SetRemovalEffect :=
  match item with
  | none => (false, SetRemovalEffect.noEffect)
  | some it =>
    match it.tag with
    | none => (false, SetRemovalEffect.noEffect)
    | some _ =>
      match env.importedMoviesInSet with
      | none => (false, SetRemovalEffect.noEffect)
      | some countImportedMoviesInSet =>
        if (onlyIfEmpty && decide (countImportedMoviesInSet ≤ 0)) || !onlyIfEmpty then
          match env.allMoviesInSet with
          | none => (false, SetRemovalEffect.noEffect)
          | some countAllMoviesInSet =>
            if countAllMoviesInSet > countImportedMoviesInSet then
              (true, SetRemovalEffect.importLinkRemoved)
            else (true, SetRemovalEffect.setDeleted)
        else (true, SetRemovalEffect.noEffect)

/-- The in-run tvshow resolution map (m_tvshows): show title to the set
of candidate tvshow items, here as tags in iteration order. -/
abbrev TvShowsMap := List (String × List VideoInfoTag)

/-- Lookup of a title in the tvshow resolution map (std::map::find). -/
def mapFind (m : TvShowsMap) (title : String) : Option (List VideoInfoTag) :=
  (m.find? fun p => decide (p.1 = title)).map (fun p => p.2)

/-- Insertion of a tvshow item into the resolution map (the map-insert
block shared by SeasonImportHandler.cpp lines 180-188 and
EpisodeImportHandler.cpp lines 250-258). -/
def mapInsert (m : TvShowsMap) (title : String) (tag : VideoInfoTag) : TvShowsMap :=
  if (mapFind m title).isSome then
    m.map fun p => if p.1 = title then (p.1, p.2 ++ [tag]) else p
  else m ++ [(title, [tag])]

/-- Core of CSeasonImportHandler::FindTvShowId and
CEpisodeImportHandler::FindTvShowId on a child tag, parameterised by
URIUtils::PathHasParent (which lives outside the handler sources):
look the show title up in the in-run map, take a sole candidate
directly, and disambiguate several candidates through the path
hierarchy. -/
def findTvShowIdTag (pathHasParent : String → String → Bool) (tvshows : TvShowsMap)
    (tag : VideoInfoTag) : Int :=
  if tag.m_strShowTitle = "" then -1
  else
    match mapFind tvshows tag.m_strShowTitle with
    | none => -1
    | some candidates =>
      match candidates with
      | [] => -1
      | [single] => single.m_iDbId
      | _ =>
        match candidates.find? (fun c => pathHasParent tag.path c.path) with
        | some c => c.m_iDbId
        | none => -1

/-- CSeasonImportHandler::FindTvShowId (SeasonImportHandler.cpp lines
412-439) and CEpisodeImportHandler::FindTvShowId
(EpisodeImportHandler.cpp lines 275-302): identical resolution of the
parent tvshow of a child item from the in-run title map. -/
def FindTvShowId (pathHasParent : String → String → Bool) (tvshows : TvShowsMap)
    (item : Option FileItem) : Int :=
  match item with
  | none => -1
  | some it =>
    match it.tag with
    | none => -1
    | some tag => findTvShowIdTag pathHasParent tvshows tag

/-- Minimal model of the video database rows touched by the season
handler's AddImportedItem: a fresh-id allocator together with the
created tvshow and season rows. -/
structure VideoDb where
  /-- Next id handed out by a SetDetailsFor call (kept positive). -/
  nextId : Int
  /-- Rows created by SetDetailsForTvShow: (id, title). -/
  tvshowRows : List (Int × String)
  /-- Rows created by SetDetailsForSeason: (id, idShow, season number). -/
  seasonRows : List (Int × Int × Int)

/-- Modelled from the spec: CVideoDatabase::SetDetailsForTvShow (outside
the handler sources) persists the tvshow and returns its database id;
modelled as allocating a fresh positive id and recording the row. -/
def VideoDb.setDetailsForTvShow (db : VideoDb) (title : String) : Int × VideoDb :=
  (db.nextId,
   { db with nextId := db.nextId + 1, tvshowRows := db.tvshowRows ++ [(db.nextId, title)] })

/-- Modelled from the spec: CVideoDatabase::GetSeasonId (outside the
handler sources) looks up a season row by show id and season number,
returning -1 when absent. -/
def VideoDb.getSeasonId (db : VideoDb) (idShow seasonNumber : Int) : Int :=
  match db.seasonRows.find? (fun r => decide (r.2.1 = idShow) && decide (r.2.2 = seasonNumber)) with
  | some r => r.1
  | none => -1

/-- Modelled from the spec: CVideoDatabase::SetDetailsForSeason (outside
the handler sources) persists the season and returns its database id;
modelled as allocating a fresh positive id and recording the row. -/
def VideoDb.setDetailsForSeason (db : VideoDb) (idShow seasonNumber : Int) : Int × VideoDb :=
  (db.nextId,
   { db with nextId := db.nextId + 1,
             seasonRows := db.seasonRows ++ [(db.nextId, idShow, seasonNumber)] })

/-- The state the season import handler threads through a
synchronisation run: the in-run tvshow resolution map and the database. -/
structure SeasonHandlerState where
  tvshows : TvShowsMap
  db : VideoDb

/-- A season item as AddImportedItem consumes it: its video info tag
(a null item is modelled by the Option wrapper at the call site). -/
structure SeasonItem where
  tag : VideoInfoTag

/-- Result of the season handler's AddImportedItem: return value, new
handler state, and the show id that was stored into the season's
m_iIdShow field. -/
structure SeasonAddResult where
  success : Bool
  state : SeasonHandlerState
  seasonIdShow : Int

/-- The tail of CSeasonImportHandler::AddImportedItem (lines 191-206):
look the season up by (show id, season number), persist it only when it
does not exist yet, and register the import link (SetImportForItem,
modelled as succeeding). -/
def finishSeasonAdd (st : SeasonHandlerState) (idShow : Int) (item : SeasonItem) :
    SeasonAddResult :=
  let existingId := st.db.getSeasonId idShow item.tag.m_iSeason
  if existingId ≤ 0 then
    let r := st.db.setDetailsForSeason idShow item.tag.m_iSeason
    if r.1 ≤ 0 then
      SeasonAddResult.mk false { st with db := r.2 } idShow
    else
      SeasonAddResult.mk true { st with db := r.2 } idShow
  else SeasonAddResult.mk true st idShow

/-- CSeasonImportHandler::AddImportedItem (SeasonImportHandler.cpp lines
112-207), parameterised by URIUtils::PathHasParent and
URIUtils::GetParentPath (both outside the handler sources) and by
whether a tvshow import handler is available.  When no parent tvshow is
found, a synthetic tvshow is built from the season's fields; the item
inserted into the in-run map is the copy taken before persistence
(CFileItem tvshowItem, created at line 148), while the local tag copy
receives the persisted id only on the direct-database fallback (line
171).  In the handler path the public tvshow AddImportedItem is
modelled from the spec as assigning the persisted id to the passed
item. -/
def seasonAddImportedItem (pathHasParent : String → String → Bool)
    (getParentPath : String → String) (tvshowHandlerAvailable : Bool)
    (st : SeasonHandlerState) (item : Option SeasonItem) : SeasonAddResult :=
  match item with
  | none => SeasonAddResult.mk false st (-1)
  | some it =>
    let season := it.tag
    let idShow := findTvShowIdTag pathHasParent st.tvshows season
    if idShow ≤ 0 then
      let tvshow : VideoInfoTag :=
        { emptyTag with
            m_type := MediaType.tvshow
            m_strTitle := season.m_strShowTitle
            m_strShowTitle := season.m_strShowTitle
            year := season.year
            m_cast := season.m_cast
            m_basePath := season.m_basePath
            path := getParentPath season.path }
      if tvshowHandlerAvailable then
        let r := st.db.setDetailsForTvShow tvshow.m_strTitle
        let tvshowItemTag := { tvshow with m_iDbId := r.1 }
        let st1 : SeasonHandlerState :=
          SeasonHandlerState.mk (mapInsert st.tvshows tvshow.m_strTitle tvshowItemTag) r.2
        finishSeasonAdd st1 tvshow.m_iDbId it
      else
        let r := st.db.setDetailsForTvShow tvshow.m_strTitle
        let tvshowItemTag := tvshow
        let st1 : SeasonHandlerState :=
          SeasonHandlerState.mk (mapInsert st.tvshows tvshow.m_strTitle tvshowItemTag) r.2
        finishSeasonAdd st1 r.1 it
    else finishSeasonAdd st idShow it

/-- Storage operations the public single-item season removal could
perform (those of the protected overload used by the cleanup pass). -/
inductive SeasonStorageOp where
  | removeImportFromItem (dbId : Int)
  | deleteSeason (dbId : Int)
deriving DecidableEq, Repr

/-- The public CSeasonImportHandler::RemoveImportedItem(import, item)
(SeasonImportHandler.cpp lines 226-234): validates the item and returns
true without touching storage; the actual deletion is deferred to the
cleanup task. -/
def seasonRemoveImportedItemPublic (item : Option FileItem) : Bool × List SeasonStorageOp :=
  match item with
  | none => (false, [])
  | some it =>
    match it.tag with
    | none => (false, [])
    | some _ => (true, [])

/-- The per-domain database status kept by CDatabaseManager
(DB_STATUS in DatabaseManager.h). -/
inductive DbStatus where
  | DB_UPDATING
  | DB_READY
  | DB_FAILED
deriving DecidableEq, Repr

/-- The m_dbStatus map of CDatabaseManager: one status record per
database domain name. -/
abbrev DbStatusMap := List (String × DbStatus)

/-- Lookup of a domain name in the status map (std::map::find). -/
def statusOf (m : DbStatusMap) (name : String) : Option DbStatus :=
  (m.find? fun p => decide (p.1 = name)).map (fun p => p.2)

/-- CDatabaseManager::CanOpen (DatabaseManager.cpp lines 104-111):
true iff a status record exists for the name and its state is DB_READY. -/
def CanOpen (m : DbStatusMap) (name : String) : Bool :=
  match statusOf m name with
  | some s => decide (s = DbStatus.DB_READY)
  | none => false

/-- Concrete original item for the C4 witness: same art count as the
incoming item but a different URL. -/
def c4Orig : FileItem := ⟨some emptyTag, [("fanart", "a")]⟩

/-- Concrete incoming item for the C4 witness. -/
def c4New : FileItem := ⟨some emptyTag, [("fanart", "b")]⟩

/-- Concrete original movie tag for the C5 scenario. -/
def c5OrigTag : VideoInfoTag := { emptyTag with m_type := MediaType.movie }

/-- Concrete incoming movie tag for the C5 scenario. -/
def c5NewTag : VideoInfoTag := { emptyTag with m_type := MediaType.movie }

/-- Concrete original item for the C5 scenario: one regular art entry
plus one automatic (default-image) entry, so the art counts differ. -/
def c5Orig : FileItem :=
  ⟨some c5OrigTag, [("fanart", "a"), ("thumb", "DefaultVideo.png")]⟩

/-- Concrete incoming item for the C5 scenario: only the regular entry. -/
def c5New : FileItem := ⟨some c5NewTag, [("fanart", "a")]⟩

/-- Concrete original tag for the C6 witness. -/
def c6OrigTag : VideoInfoTag := { emptyTag with playCount := 1, m_strTitle := "x" }

/-- Concrete incoming tag for the C6 witness: same playback state but a
different title and art map. -/
def c6NewTag : VideoInfoTag := { emptyTag with playCount := 1, m_strTitle := "y" }

/-- Concrete original item for the C6 witness. -/
def c6Orig : FileItem := ⟨some c6OrigTag, []⟩

/-- Concrete incoming item for the C6 witness. -/
def c6New : FileItem := ⟨some c6NewTag, [("poster", "p")]⟩

/-- Concrete original tag for the C7 witness: differs from the incoming
tag only in the genre field, which the episode handler ignores. -/
def c7OrigTag : VideoInfoTag :=
  { emptyTag with scalarField := fun f => if f = Field.FieldGenre then "g1" else "" }

/-- Concrete incoming tag for the C7 witness. -/
def c7NewTag : VideoInfoTag :=
  { emptyTag with scalarField := fun f => if f = Field.FieldGenre then "g2" else "" }

/-- Concrete original item for the C7 witness. -/
def c7Orig : FileItem := ⟨some c7OrigTag, []⟩

/-- Concrete incoming item for the C7 witness. -/
def c7New : FileItem := ⟨some c7NewTag, []⟩

/-- Concrete original tag for the C8 witness: one cast member. -/
def c8OrigTag : VideoInfoTag :=
  { emptyTag with m_cast := [⟨"Alice", "Lead", "t", "u"⟩] }

/-- Concrete incoming tag for the C8 witness: supplies no cast at all. -/
def c8NewTag : VideoInfoTag := emptyTag

/-- PathHasParent instance for the C2 scenario (unused by a sole
candidate). -/
def c2Php : String → String → Bool := fun _ _ => false

/-- Sole tvshow candidate of the C2 scenario: title Foo, year 2000,
database id 7. -/
def c2Candidate : VideoInfoTag :=
  { emptyTag with m_strTitle := "Foo", m_strShowTitle := "Foo", year := 2000, m_iDbId := 7 }

/-- In-run resolution map of the C2 scenario. -/
def c2Map : TvShowsMap := [("Foo", [c2Candidate])]

/-- Child tag of the C2 scenario: show title Foo but year 1999, so both
sides carry a year and the years differ. -/
def c2Tag : VideoInfoTag := { emptyTag with m_strShowTitle := "Foo", year := 1999 }

/-- Child item of the C2 scenario. -/
def c2Item : FileItem := ⟨some c2Tag, []⟩

/-- Second candidate show for the C2 witness map. -/
def c2wCandidate : VideoInfoTag :=
  { emptyTag with m_strTitle := "Bar", m_strShowTitle := "Bar", m_iDbId := 9 }

/-- Map with a sole candidate for the C2 witness. -/
def c2wMap : TvShowsMap := [("Bar", [c2wCandidate])]

/-- Child item for the C2 witness. -/
def c2wItem : FileItem := ⟨some { emptyTag with m_strShowTitle := "Bar" }, []⟩

/-- PathHasParent instance for the C3 scenario (never consulted: the
map never holds two candidates for the same title there). -/
def c3Php : String → String → Bool := fun _ _ => false

/-- GetParentPath instance for the C3 scenario. -/
def c3Gpp : String → String := fun _ => "plugin://src/Foo/"

/-- Initial season-handler state for the C3 scenario: empty in-run map,
database allocator starting at id 5. -/
def c3St0 : SeasonHandlerState := ⟨[], ⟨5, [], []⟩⟩

/-- First imported season of show Foo for the C3 scenario. -/
def c3Season1 : SeasonItem :=
  ⟨{ emptyTag with
      m_strShowTitle := "Foo", m_iSeason := 1, path := "plugin://src/Foo/Season 1/" }⟩

/-- Second imported season of the same show Foo for the C3 scenario. -/
def c3Season2 : SeasonItem :=
  ⟨{ emptyTag with
      m_strShowTitle := "Foo", m_iSeason := 2, path := "plugin://src/Foo/Season 2/" }⟩

/-- Result of the first AddImportedItem of the C3 scenario, run on the
direct-database fallback path (no tvshow import handler available). -/
def c3Run1 : SeasonAddResult :=
  seasonAddImportedItem c3Php c3Gpp false c3St0 (some c3Season1)

/-- Claim C9: CDatabaseManager::CanOpen(name) returns true iff a status
record for the name exists and its state is Ready; in particular it
returns false when no record is present (update not yet attempted) and
for records in the Updating or Failed state. -/
theorem canOpen_iff_ready (m : DbStatusMap) (name : String) :
    (CanOpen m name = true ↔ statusOf m name = some DbStatus.DB_READY) ∧
    (statusOf m name = none → CanOpen m name = false) ∧
    (statusOf m name = some DbStatus.DB_UPDATING → CanOpen m name = false) ∧
    (statusOf m name = some DbStatus.DB_FAILED → CanOpen m name = false) := by
  cases h : statusOf m name with
  | none => simp [CanOpen, h]
  | some s => cases s <;> simp [CanOpen, h]

/-- Witness for C9 at concrete inputs: a domain in the Updating state
cannot be opened. -/
theorem canOpen_iff_ready_witness :
    CanOpen [("video", DbStatus.DB_UPDATING)] "video" = false :=
  (canOpen_iff_ready [("video", DbStatus.DB_UPDATING)] "video").2.2.1 (by decide)

/-- Claim C10: the public single-item CSeasonImportHandler::RemoveImportedItem
performs no storage operation, returning true exactly when the item is
non-null and has a video info tag and false otherwise. -/
theorem seasonRemovePublic_no_storage (item : Option FileItem) :
    (seasonRemoveImportedItemPublic item).2 = [] ∧
    ((seasonRemoveImportedItemPublic item).1 = true ↔
      ∃ it : FileItem, ∃ tag : VideoInfoTag, item = some it ∧ it.tag = some tag) := by
  cases item with
  | none =>
    refine ⟨rfl, ?_, ?_⟩
    · intro h
      exact Bool.noConfusion h
    · rintro ⟨it2, tg2, h2, _⟩
      exact Option.noConfusion h2
  | some it =>
    obtain ⟨tg, art⟩ := it
    cases tg with
    | none =>
      refine ⟨rfl, ?_, ?_⟩
      · intro h
        exact Bool.noConfusion h
      · rintro ⟨it2, tg2, h2, h3⟩
        cases h2
        exact Option.noConfusion h3
    | some v =>
      exact ⟨rfl, fun _ => ⟨⟨some v, art⟩, v, rfl, rfl⟩, fun _ => rfl⟩

/-- Claim C1: CMovieSetImportHandler::RemoveImportedItem implements the
two-tier removal policy: with onlyIfEmpty set and a positive count of
movies in the set linked to this import the set is untouched;
otherwise, when the count of all movies in the set exceeds the
linked-movie count only the (import, mediaType) link is removed, and
when it does not the set entity is deleted. -/
theorem movieSetRemove_two_tier
    (env : MovieSetRemovalEnv) (it : FileItem) (tag : VideoInfoTag) (onlyIfEmpty : Bool)
    (cImp cAll : Int)
    (htag : it.tag = some tag)
    (hImp : env.importedMoviesInSet = some cImp)
    (hAll : env.allMoviesInSet = some cAll) :
    (onlyIfEmpty = true → 0 < cImp →
      movieSetRemoveImportedItem env (some it) onlyIfEmpty
        = (true, SetRemovalEffect.noEffect)) ∧
    ((onlyIfEmpty = false ∨ cImp ≤ 0) →
      (cImp < cAll →
        movieSetRemoveImportedItem env (some it) onlyIfEmpty
          = (true, SetRemovalEffect.importLinkRemoved)) ∧
      (cAll ≤ cImp →
        movieSetRemoveImportedItem env (some it) onlyIfEmpty
          = (true, SetRemovalEffect.setDeleted))) := by
  simp only [movieSetRemoveImportedItem, htag, hImp, hAll]
  constructor
  · intro h1 h2
    subst h1
    have hcond : (true && decide (cImp ≤ 0) || !true) = false := by
      simp only [Bool.true_and, Bool.not_true, Bool.or_false]
      simp only [decide_eq_false_iff_not]
      omega
    rw [hcond, if_neg (show ¬ (false = true) from Bool.noConfusion)]
  · intro h1
    have hcond : (onlyIfEmpty && decide (cImp ≤ 0) || !onlyIfEmpty) = true := by
      cases h1 with
      | inl h => subst h; rfl
      | inr h =>
        cases onlyIfEmpty with
        | false => rfl
        | true => simp [h]
    rw [hcond, if_pos (show (true : Bool) = true from rfl)]
    constructor
    · intro hlt
      rw [if_pos (show cAll > cImp from hlt)]
    · intro hle
      rw [if_neg (show ¬ cAll > cImp by omega)]

/-- Witness for C1 at concrete inputs: with two movies linked to the
removed import and three movies overall, the non-onlyIfEmpty removal
only removes the (import, mediaType) link and keeps the set. -/
theorem movieSetRemove_two_tier_witness :
    movieSetRemoveImportedItem ⟨some 2, some 3⟩ (some ⟨some emptyTag, []⟩) false
      = (true, SetRemovalEffect.importLinkRemoved) :=
  (movieSetRemove_two_tier ⟨some 2, some 3⟩ ⟨some emptyTag, []⟩ emptyTag false 2 3
    rfl rfl rfl).2 (Or.inl rfl) |>.1 (by decide)

/-- Claim C4: in Compare with allMetadata = true, art maps of equal size
with different values make the items unequal, while an original art map
with extra entries whose automatic-artwork stripping yields exactly the
incoming art map lets the comparison proceed to the metadata fields. -/
theorem compare_artwork_equal_size_and_strip
    (ign : List Field) (orig new : FileItem) (o n : VideoInfoTag) (pb : Bool)
    (hO : orig.tag = some o) (hN : new.tag = some n) :
    (orig.art.length = new.art.length → orig.art ≠ new.art →
      Compare ign orig new true pb = false) ∧
    (new.art.length < orig.art.length →
      RemoveAutoArtwork orig.art (parentPrefixesFor o.m_type) = new.art →
      Compare ign orig new true pb = compareMetadata ign o n pb) := by
  constructor
  · intro hlen hne
    simp only [Compare, hO, hN]
    rw [if_neg (show ¬ ((true : Bool) = false) from Bool.noConfusion)]
    rw [if_pos hne, if_pos hlen]
  · intro hlen hstrip
    have hne : orig.art ≠ new.art := by
      intro hc
      rw [hc] at hlen
      omega
    simp only [Compare, hO, hN]
    rw [if_neg (show ¬ ((true : Bool) = false) from Bool.noConfusion)]
    rw [if_pos hne, if_neg (show ¬ orig.art.length = new.art.length by omega)]
    rw [if_neg (show ¬ RemoveAutoArtwork orig.art (parentPrefixesFor o.m_type) ≠ new.art
      from fun hc => hc hstrip)]

/-- Witness for C4 at concrete inputs: equal-size art maps with a
changed URL make the items unequal. -/
theorem compare_artwork_equal_size_and_strip_witness :
    Compare [] c4Orig c4New true true = false :=
  (compare_artwork_equal_size_and_strip [] c4Orig c4New emptyTag emptyTag true rfl rfl).1
    rfl (by decide)

/-- Counterexample to claim C5 as stated: the art maps of these two
items differ in entry count (2 against 1), yet Compare does not
short-circuit to unequal — the extra entry is automatic artwork, it is
stripped, and the items compare equal. -/
theorem compare_count_shortcircuit_cex :
    c5Orig.art.length = 2 ∧ c5New.art.length = 1 ∧
    Compare [] c5Orig c5New true true = true := by
  refine ⟨rfl, rfl, ?_⟩
  decide

/-- Claim C5 as amended: when the art maps differ in content, an equal
entry count makes the items immediately unequal (the URLs must have
changed), while differing counts trigger the automatic-artwork
stripping on the original side and a re-comparison, the items being
unequal iff the stripped map still differs. -/
theorem compare_artwork_gate_order
    (ign : List Field) (orig new : FileItem) (o n : VideoInfoTag) (pb : Bool)
    (hO : orig.tag = some o) (hN : new.tag = some n)
    (hne : orig.art ≠ new.art) :
    (orig.art.length = new.art.length → Compare ign orig new true pb = false) ∧
    (orig.art.length ≠ new.art.length →
      (RemoveAutoArtwork orig.art (parentPrefixesFor o.m_type) ≠ new.art →
        Compare ign orig new true pb = false) ∧
      (RemoveAutoArtwork orig.art (parentPrefixesFor o.m_type) = new.art →
        Compare ign orig new true pb = compareMetadata ign o n pb)) := by
  simp only [Compare, hO, hN]
  rw [if_neg (show ¬ ((true : Bool) = false) from Bool.noConfusion), if_pos hne]
  constructor
  · intro hlen
    rw [if_pos hlen]
  · intro hlen
    rw [if_neg hlen]
    constructor
    · intro hstrip
      rw [if_pos hstrip]
    · intro hstrip
      rw [if_neg (show ¬ RemoveAutoArtwork orig.art (parentPrefixesFor o.m_type) ≠ new.art
        from fun hc => hc hstrip)]

/-- Witness for the amended C5 at concrete inputs: differing art counts
whose stripped original map equals the incoming map proceed to the
metadata comparison. -/
theorem compare_artwork_gate_order_witness :
    Compare [] c5Orig c5New true true = compareMetadata [] c5OrigTag c5NewTag true :=
  ((compare_artwork_gate_order [] c5Orig c5New c5OrigTag c5NewTag true rfl rfl
    (by decide)).2 (by decide)).2 (by decide)

/-- Claim C6: in lightweight mode (allMetadata = false) item equality
holds iff the two items agree on play count, last-played timestamp and
resume seconds, and the result is invariant under changes to every
other field of either item. -/
theorem compare_lightweight_playback_only
    (ign : List Field) (orig new : FileItem) (o n : VideoInfoTag) (pb : Bool)
    (hO : orig.tag = some o) (hN : new.tag = some n) :
    (Compare ign orig new false pb = true ↔
      (o.playCount = n.playCount ∧ o.m_lastPlayed = n.m_lastPlayed ∧
        o.resumeTimeInSeconds = n.resumeTimeInSeconds)) ∧
    (∀ (ign2 : List Field) (orig2 new2 : FileItem) (o2 n2 : VideoInfoTag) (pb2 : Bool),
      orig2.tag = some o2 → new2.tag = some n2 →
      o2.playCount = o.playCount → n2.playCount = n.playCount →
      o2.m_lastPlayed = o.m_lastPlayed → n2.m_lastPlayed = n.m_lastPlayed →
      o2.resumeTimeInSeconds = o.resumeTimeInSeconds →
      n2.resumeTimeInSeconds = n.resumeTimeInSeconds →
      Compare ign2 orig2 new2 false pb2 = Compare ign orig new false pb) := by
  have hmain : ∀ (ignx : List Field) (origx newx : FileItem) (ox nx : VideoInfoTag) (pbx : Bool),
      origx.tag = some ox → newx.tag = some nx →
      Compare ignx origx newx false pbx =
        (decide (ox.playCount = nx.playCount) && decide (ox.m_lastPlayed = nx.m_lastPlayed) &&
          decide (ox.resumeTimeInSeconds = nx.resumeTimeInSeconds)) := by
    intro ignx origx newx ox nx pbx hOx hNx
    simp only [Compare, hOx, hNx]
    rw [if_pos trivial]
  constructor
  · rw [hmain ign orig new o n pb hO hN]
    simp only [Bool.and_eq_true, decide_eq_true_eq, and_assoc]
  · intro ign2 orig2 new2 o2 n2 pb2 hO2 hN2 e1 e2 e3 e4 e5 e6
    rw [hmain ign2 orig2 new2 o2 n2 pb2 hO2 hN2, hmain ign orig new o n pb hO hN,
        e1, e2, e3, e4, e5, e6]

/-- Witness for C6 at concrete inputs: items agreeing on the three
playback fields but differing in title and art compare equal in
lightweight mode. -/
theorem compare_lightweight_playback_only_witness :
    Compare [] c6Orig c6New false true = true :=
  (compare_lightweight_playback_only [] c6Orig c6New c6OrigTag c6NewTag true rfl rfl).1.mpr
    ⟨rfl, rfl, rfl⟩

/-- Claim C7: two items with equal art maps that are field-identical
except for fields in the handler's IgnoreDifferences set compare equal
under Compare(original, incoming, true, true): every difference in an
ignored field is erased from the difference set before the emptiness
check.  The statement is generic in the ignore set and so covers every
media-type handler (episodeIgnoreDifferences being the episode
handler's instance). -/
theorem compare_ignored_fields_equal
    (ign : List Field) (orig new : FileItem) (o n : VideoInfoTag)
    (hO : orig.tag = some o) (hN : new.tag = some n)
    (hart : orig.art = new.art)
    (hdiff : ∀ f : Field, fieldDiffers o n f = true → f ∈ ign) :
    Compare ign orig new true true = true := by
  simp only [Compare, hO, hN]
  rw [if_neg (show ¬ ((true : Bool) = false) from Bool.noConfusion)]
  rw [if_neg (show ¬ orig.art ≠ new.art from fun hc => hc hart)]
  simp only [compareMetadata]
  by_cases hd : GetDifferences o n = []
  · rw [if_pos hd]
  · rw [if_neg hd]
    have h1 : erasePlaybackFields true (GetDifferences o n) = GetDifferences o n := rfl
    have h2 : eraseIgnoredFields ign (GetDifferences o n) = [] := by
      simp only [eraseIgnoredFields]
      rw [List.filter_eq_nil_iff]
      intro f hf
      simp only [GetDifferences, List.mem_filter] at hf
      simp only [decide_eq_true_eq, not_not]
      exact hdiff f hf.2
    rw [h1, h2]
    rfl

/-- Witness for C7 at concrete inputs: items differing only in the
genre field, which the episode handler ignores, compare equal. -/
theorem compare_ignored_fields_equal_witness :
    Compare episodeIgnoreDifferences c7Orig c7New true true = true :=
  compare_ignored_fields_equal episodeIgnoreDifferences c7Orig c7New c7OrigTag c7NewTag
    rfl rfl rfl (by decide)

/-- Claim C8: when the cast field is flagged as different, the special
handling erases it exactly when the incoming item supplies no cast at
all, or the casts agree element-wise on actor name and role, on the
thumbnail unless the incoming thumbnail is empty and on the thumbnail
URL data unless the incoming data is empty; no other field of the
difference set is affected. -/
theorem compare_cast_special_case
    (o n : VideoInfoTag) (diffs : List Field)
    (h : Field.FieldActor ∈ diffs) :
    (Field.FieldActor ∉ applyActorSpecialCase o n diffs ↔
      (n.m_cast = [] ∨
        (o.m_cast.length = n.m_cast.length ∧
          ∀ p ∈ o.m_cast.zip n.m_cast,
            p.1.strName = p.2.strName ∧ p.1.strRole = p.2.strRole ∧
            (p.2.thumb = "" ∨ p.1.thumb = p.2.thumb) ∧
            (p.2.thumbUrlData = "" ∨ p.1.thumbUrlData = p.2.thumbUrlData)))) ∧
    (∀ g : Field, g ≠ Field.FieldActor →
      (g ∈ applyActorSpecialCase o n diffs ↔ g ∈ diffs)) := by
  have hcast : castsCompatible o.m_cast n.m_cast = true ↔
      (n.m_cast = [] ∨
        (o.m_cast.length = n.m_cast.length ∧
          ∀ p ∈ o.m_cast.zip n.m_cast,
            p.1.strName = p.2.strName ∧ p.1.strRole = p.2.strRole ∧
            (p.2.thumb = "" ∨ p.1.thumb = p.2.thumb) ∧
            (p.2.thumbUrlData = "" ∨ p.1.thumbUrlData = p.2.thumbUrlData))) := by
    simp only [castsCompatible]
    by_cases hnil : n.m_cast = []
    · rw [if_pos hnil]
      simp [hnil]
    · rw [if_neg hnil]
      by_cases hlen : o.m_cast.length = n.m_cast.length
      · rw [if_pos hlen]
        rw [List.all_eq_true]
        constructor
        · intro hall
          refine Or.inr ⟨hlen, ?_⟩
          intro p hp
          have hpp := hall p hp
          simp only [Bool.and_eq_true, Bool.or_eq_true, decide_eq_true_eq] at hpp
          exact ⟨hpp.1.1.1, hpp.1.1.2, hpp.1.2, hpp.2⟩
        · intro hall
          cases hall with
          | inl hc => exact absurd hc hnil
          | inr hc =>
            intro p hp
            have hpp := hc.2 p hp
            simp only [Bool.and_eq_true, Bool.or_eq_true, decide_eq_true_eq]
            exact ⟨⟨⟨hpp.1, hpp.2.1⟩, hpp.2.2.1⟩, hpp.2.2.2⟩
      · rw [if_neg hlen]
        constructor
        · intro hfalse
          exact Bool.noConfusion hfalse
        · intro hr
          cases hr with
          | inl hc => exact absurd hc hnil
          | inr hc => exact absurd hc.1 hlen
  simp only [applyActorSpecialCase]
  rw [if_pos h]
  by_cases hc : castsCompatible o.m_cast n.m_cast = true
  · rw [if_pos hc]
    constructor
    · constructor
      · intro _
        exact hcast.mp hc
      · intro _ hmem
        rw [List.mem_filter] at hmem
        simpa using hmem.2
    · intro g hg
      rw [List.mem_filter]
      constructor
      · exact fun hm => hm.1
      · intro hm
        exact ⟨hm, by simpa using hg⟩
  · rw [if_neg hc]
    constructor
    · constructor
      · intro hmem
        exact absurd h hmem
      · intro hr
        exact absurd (hcast.mpr hr) hc
    · intro g _
      exact Iff.rfl

/-- Witness for C8 at concrete inputs: an incoming item supplying no
cast has its flagged cast difference erased. -/
theorem compare_cast_special_case_witness :
    Field.FieldActor ∉ applyActorSpecialCase c8OrigTag c8NewTag [Field.FieldActor] :=
  (compare_cast_special_case c8OrigTag c8NewTag [Field.FieldActor]
    (by decide)).1.mpr (Or.inl rfl)

/-- Counterexample to claim C2 as stated: FindTvShowId performs no year
match.  Here the sole candidate carrying the title has year 2000 while
the child item has year 1999 - both sides have a year and the years
differ - yet FindTvShowId still resolves to the candidate's database
id 7 instead of reporting no match. -/
theorem findTvShowId_no_year_match_cex :
    c2Tag.year = 1999 ∧ c2Candidate.year = 2000 ∧
    0 < c2Tag.year ∧ 0 < c2Candidate.year ∧
    mapFind c2Map c2Tag.m_strShowTitle = some [c2Candidate] ∧
    FindTvShowId c2Php c2Map (some c2Item) = 7 ∧
    ¬ FindTvShowId c2Php c2Map (some c2Item) = -1 := by
  refine ⟨rfl, rfl, ?_, ?_, rfl, ?_, ?_⟩ <;> decide

/-- Reduction of findTvShowIdTag in the several-candidates case to the
path-hierarchy search. -/
theorem findTvShowIdTag_multi (php : String → String → Bool) (m : TvShowsMap)
    (tag : VideoInfoTag) (a b : VideoInfoTag) (rest : List VideoInfoTag)
    (hne : tag.m_strShowTitle ≠ "")
    (hfind : mapFind m tag.m_strShowTitle = some (a :: b :: rest)) :
    findTvShowIdTag php m tag =
      (match (a :: b :: rest).find? (fun c => php tag.path c.path) with
       | some c => c.m_iDbId
       | none => -1) := by
  simp only [findTvShowIdTag]
  rw [if_neg hne, hfind]

/-- Claim C2 as amended (the year-match clause dropped: FindTvShowId
consults only the show title, never the year): FindTvShowId returns -1
for a null item, a missing video info tag, an empty show title or a
title absent from the in-run map; a sole candidate carrying the title
yields that candidate's database id; with several candidates it yields
the id of a candidate whose path is a filesystem-hierarchy ancestor of
the child's path, and -1 when no candidate's path is such an ancestor. -/
theorem findTvShowId_characterisation
    (php : String → String → Bool) (m : TvShowsMap) (item : Option FileItem) :
    (item = none → FindTvShowId php m item = -1) ∧
    (∀ it : FileItem, item = some it → it.tag = none → FindTvShowId php m item = -1) ∧
    (∀ it : FileItem, ∀ tag : VideoInfoTag, item = some it → it.tag = some tag →
      tag.m_strShowTitle = "" → FindTvShowId php m item = -1) ∧
    (∀ it : FileItem, ∀ tag : VideoInfoTag, item = some it → it.tag = some tag →
      tag.m_strShowTitle ≠ "" → mapFind m tag.m_strShowTitle = none →
      FindTvShowId php m item = -1) ∧
    (∀ it : FileItem, ∀ tag s : VideoInfoTag, item = some it → it.tag = some tag →
      tag.m_strShowTitle ≠ "" → mapFind m tag.m_strShowTitle = some [s] →
      FindTvShowId php m item = s.m_iDbId) ∧
    (∀ it : FileItem, ∀ tag : VideoInfoTag, ∀ cands : List VideoInfoTag,
      item = some it → it.tag = some tag → tag.m_strShowTitle ≠ "" →
      mapFind m tag.m_strShowTitle = some cands → 2 ≤ cands.length →
      ((∃ c ∈ cands, php tag.path c.path = true ∧ FindTvShowId php m item = c.m_iDbId) ∨
       ((∀ c ∈ cands, php tag.path c.path = false) ∧ FindTvShowId php m item = -1))) := by
  refine ⟨?_, ?_, ?_, ?_, ?_, ?_⟩
  · intro h
    subst h
    rfl
  · intro it h htg
    subst h
    simp only [FindTvShowId, htg]
  · intro it tag h htg hempty
    subst h
    simp only [FindTvShowId, htg, findTvShowIdTag]
    rw [if_pos hempty]
  · intro it tag h htg hne hfind
    subst h
    simp only [FindTvShowId, htg, findTvShowIdTag]
    rw [if_neg hne, hfind]
  · intro it tag s h htg hne hfind
    subst h
    simp only [FindTvShowId, htg, findTvShowIdTag]
    rw [if_neg hne, hfind]
  · intro it tag cands h htg hne hfind hlen
    subst h
    rcases cands with _ | ⟨a, _ | ⟨b, rest⟩⟩
    · simp at hlen
    · simp at hlen
    · have hred : FindTvShowId php m (some it) =
          (match (a :: b :: rest).find? (fun c => php tag.path c.path) with
           | some c => c.m_iDbId
           | none => -1) := by
        simp only [FindTvShowId, htg]
        exact findTvShowIdTag_multi php m tag a b rest hne hfind
      cases hfq : (a :: b :: rest).find? (fun c => php tag.path c.path) with
      | some c =>
        left
        have hpc : php tag.path c.path = true := by
          have h0 := List.find?_some hfq
          exact h0
        exact ⟨c, List.mem_of_find?_eq_some hfq, hpc, by rw [hred, hfq]⟩
      | none =>
        right
        constructor
        · intro c hc
          have hnc := List.find?_eq_none.mp hfq c hc
          cases hb : php tag.path c.path
          · rfl
          · exact absurd hb hnc
        · rw [hred, hfq]

/-- Witness for the amended C2 at concrete inputs: a sole candidate
carrying the looked-up title resolves to its database id. -/
theorem findTvShowId_characterisation_witness :
    FindTvShowId c2Php c2wMap (some c2wItem) = c2wCandidate.m_iDbId :=
  (findTvShowId_characterisation c2Php c2wMap (some c2wItem)).2.2.2.2.1
    c2wItem { emptyTag with m_strShowTitle := "Bar" } c2wCandidate rfl rfl (by decide) rfl

/-- Claim C3 evaluated at the failing input: with no tvshow import
handler available (direct-database fallback), the first AddImportedItem
for a season of show Foo succeeds, creates the synthetic tvshow with
database id 5 and links the season to it - but the item it records in
the in-run map is the copy taken before persistence, whose database id
is still -1.  A second AddImportedItem in the same run for another
season of Foo therefore resolves FindTvShowId to -1 instead of 5 and
creates the parent tvshow a second time. -/
theorem seasonAdd_resolution_not_idempotent :
    c3Run1.success = true ∧
    c3Run1.seasonIdShow = 5 ∧
    c3Run1.state.db.tvshowRows = [(5, "Foo")] ∧
    (mapFind c3Run1.state.tvshows "Foo").map (fun l => l.map (fun t => t.m_iDbId))
      = some [-1] ∧
    FindTvShowId c3Php c3Run1.state.tvshows (some ⟨some c3Season2.tag, []⟩) = -1 ∧
    (seasonAddImportedItem c3Php c3Gpp false c3Run1.state (some c3Season2)).state.db.tvshowRows
      = [(5, "Foo"), (7, "Foo")] := by
  decide

end XbmcImport
